import Mathlib

/-!
# Verification of the `closer` remote supervisor (`src/closer/closer.py`)

Shallow embedding of the supervisor module `closer/closer.py`.  The module
has four parts, each embedded below directly from the source:

* `killAll` (lines 15-20): enumerate `psutil.Process(os.getpid()).children(recursive=True)`
  and call `getattr(process, killer)()` on each, where `killer` is the
  argparse-restricted global set from `--killer`.
* `quitWhenToldServer` (lines 22-29): a UDP control-channel listener thread:
  connect to `peer`, send the datagram `'hi'`, block in `recv`, then set
  `killedByUser` and call `killAll`.
* `interpret` (lines 31-33): `pickle.loads(hexedPickle.decode('hex'))`.
* `main` (lines 35-64): parse arguments, decode the descriptor, either
  pretty-print it (`--interpret`) or spawn the child, install a SIGTERM
  handler, optionally start the listener thread, wait for the child, join the
  listener when `killedByUser` is set, and `sys.exit` the child's exit code.

Process-level side effects (socket operations, spawning, signal handler
installation, joining, exiting) are embedded as an event trace; the process
table snapshot seen by `psutil` is embedded as a first-child/next-sibling
forest of the supervisor's strict descendants.
-/

namespace Closer

/-- The two kill methods a `psutil.Process` offers that `--killer` can name:
`terminate` (graceful SIGTERM) and `kill` (forced SIGKILL).  `argparse`
restricts `--killer` to exactly these two choices (line 39), and
`getattr(process, killer)` (line 19) resolves the chosen name to the
method of the same name, so one type serves as both the parsed choice and
the resolved method. -/
inductive KillMethod : Type where
  | kill
  | terminate
deriving DecidableEq, Repr

/-- One kill delivered by `killAll`: the target pid and the method applied
to it (`killMethod()`, line 20). -/
structure KillAction : Type where
  pid : Nat
  method : KillMethod
deriving DecidableEq, Repr

/-- Snapshot of the forest of strict descendants of the supervisor process
at the moment `killAll` runs, in first-child/next-sibling form:
`node p kids sibs` is a descendant process `p` whose own children form the
forest `kids`, with `sibs` the remaining forest at the same level.  This is
the process-table subtree that `me.children(recursive=True)` (line 18)
draws from. -/
inductive ProcForest : Type where
  | nil : ProcForest
  | node (pid : Nat) (kids : ProcForest) (sibs : ProcForest) : ProcForest
deriving DecidableEq, Repr

/-- The pid list produced by `me.children(recursive=True)` (line 18): every
process in the snapshot forest, each exactly where its node sits in the
traversal. -/
def childrenRecursive : ProcForest → List Nat
  | ProcForest.nil => []
  | ProcForest.node p kids sibs => p :: (childrenRecursive kids ++ childrenRecursive sibs)

/-- Embedding of `killAll` (lines 15-20): for every process returned by
`me.children(recursive=True)`, look up the kill method named by the global
`killer` and invoke it.  The result is the list of kill actions delivered. -/
def killAll (descendants : ProcForest) (killer : KillMethod) : List KillAction :=
  (childrenRecursive descendants).map fun p => KillAction.mk p killer

/-- The spec-side notion of "recursive descendant of the supervisor":
a process appearing anywhere in the snapshot forest of strict descendants —
a top-level child, or (recursively) below one. -/
inductive Descendant : Nat → ProcForest → Prop where
  | self {p : Nat} {kids sibs : ProcForest} :
      Descendant p (ProcForest.node p kids sibs)
  | inKids {p q : Nat} {kids sibs : ProcForest} :
      Descendant p kids → Descendant p (ProcForest.node q kids sibs)
  | inSibs {p q : Nat} {kids sibs : ProcForest} :
      Descendant p sibs → Descendant p (ProcForest.node q kids sibs)

/-- The handler object installed by `signal.signal(signal.SIGTERM, killAll)`
(line 53): it is the function `killAll` itself. -/
def installedSigtermHandler : ProcForest → KillMethod → List KillAction :=
  killAll

/-- The subtree kill performed by the control-channel path: the `killAll()`
call at line 29 of `quitWhenToldServer`. -/
def listenerKillRoutine : ProcForest → KillMethod → List KillAction :=
  killAll

/-- The pids a list of kill actions reaches. -/
def killedPids (actions : List KillAction) : List Nat :=
  actions.map KillAction.pid

/-- Model of the `argparse` handling of `--killer` (line 39): absent means the default
`'terminate'`; present, only the choices `'kill'` and `'terminate'` are
accepted, anything else is an argument error. -/
def parseKiller : Option String → Except String KillMethod
  | none => Except.ok KillMethod.terminate
  | some s =>
      if s = "kill" then Except.ok KillMethod.kill
      else if s = "terminate" then Except.ok KillMethod.terminate
      else Except.error "argument --killer: invalid choice"

/-! ## Descriptor decoding (`interpret`, lines 31-33) -/

/-- The exceptions the decoding pipeline can raise: `str.decode('hex')`
raises `TypeError` on malformed hex input (odd length or a non-hex digit),
and `pickle.loads` raises an unpickling error on malformed pickle bytes.
No exception class is defined by `closer.py` itself. -/
inductive PyExn : Type where
  | typeError
  | unpicklingError
deriving DecidableEq, Repr

/-- The Python class name of each exception the decoding pipeline raises. -/
def PyExn.className : PyExn → String
  | PyExn.typeError => "TypeError"
  | PyExn.unpicklingError => "UnpicklingError"

/-- Whether a character is one of the hex digits accepted by the hex codec. -/
def isHexDigitChar (c : Char) : Bool :=
  ('0' ≤ c && c ≤ '9') || ('a' ≤ c && c ≤ 'f') || ('A' ≤ c && c ≤ 'F')

/-- Numeric value of a hex digit character. -/
def hexDigitVal (c : Char) : Nat :=
  if '0' ≤ c && c ≤ '9' then c.toNat - '0'.toNat
  else if 'a' ≤ c && c ≤ 'f' then c.toNat - 'a'.toNat + 10
  else c.toNat - 'A'.toNat + 10

/-- Decode an even-length run of hex digits two at a time; a non-hex digit
raises `TypeError`, as `binascii` does for `str.decode('hex')`. -/
def hexDecodePairs : List Char → Except PyExn (List Nat)
  | [] => Except.ok []
  | [_] => Except.error PyExn.typeError
  | c1 :: c2 :: rest =>
      if isHexDigitChar c1 && isHexDigitChar c2 then
        match hexDecodePairs rest with
        | Except.ok tail => Except.ok ((16 * hexDigitVal c1 + hexDigitVal c2) :: tail)
        | Except.error e => Except.error e
      else Except.error PyExn.typeError

/-- Embedding of `hexedPickle.decode('hex')` (line 32): Python 2 `binascii.unhexlify`,
which first raises `TypeError` on odd-length input, then decodes digit
pairs, raising `TypeError` on any non-hex digit. -/
def hexDecode (s : String) : Except PyExn (List Nat) :=
  if s.length % 2 = 1 then Except.error PyExn.typeError
  else hexDecodePairs s.toList

/-- The `popenDetails` part of the decoded descriptor: the positional and
keyword arguments handed to `subprocess.Popen` (line 52). -/
structure PopenDetails : Type where
  args : List String
  kwargs : List (String × String)
deriving DecidableEq, Repr

/-- The decoded descriptor dict: `details['popenDetails']` (line 51) and
`details['peer']` (line 55), the control-channel (host, port). -/
structure Details : Type where
  popenDetails : PopenDetails
  peer : String × Nat
deriving DecidableEq, Repr

/-- Embedding of `interpret` (lines 31-33): hex-decode the token, then unpickle the
resulting bytes.  `pickle.loads` is a standard-library call, passed in as
the `loads` parameter; whatever exception either stage raises propagates. -/
def interpret (loads : List Nat → Except PyExn Details) (hexedPickle : String) :
    Except PyExn Details :=
  match hexDecode hexedPickle with
  | Except.error e => Except.error e
  | Except.ok pickled => loads pickled

/-! ## Event-trace semantics of `quitWhenToldServer` and `main` -/

/-- Observable process-level steps of the supervisor, in program order.
`sockRecv` stands for a *completed* `sock.recv(1024)`, i.e. an inbound
datagram actually arrived; a listener whose datagram never arrives stays
blocked inside `recv` and its trace simply stops before `sockRecv`. -/
inductive Event : Type where
  | decodeToken
  | printDescriptor
  | spawnChild
  | installSigtermHandlerStep
  | startListenerThread
  | waitChild (code : Int)
  | joinListener
  | exitProcess (code : Int)
  | sockConnect (peer : String × Nat)
  | sockSend (payload : String)
  | sockRecv
  | setKilledByUser
  | killSubtree
deriving DecidableEq, Repr

/-- Whether an event is an outbound datagram send. -/
def Event.isSend : Event → Bool
  | Event.sockSend _ => true
  | _ => false

/-- Whether an event is a completed inbound datagram receive. -/
def Event.isRecv : Event → Bool
  | Event.sockRecv => true
  | _ => false

/-- Embedding of `quitWhenToldServer(peer)` (lines 22-29) as an event trace.  The thread
creates a UDP socket, connects it to `peer`, sends the datagram `'hi'`, and
blocks in `recv`.  `datagramArrives` records whether an inbound datagram
ever arrives: if so the `recv` completes and the thread sets `killedByUser`
and runs `killAll()`; if not, the thread remains blocked after the send and
produces no further events. -/
def quitWhenToldServer (peer : String × Nat) (datagramArrives : Bool) : List Event :=
  [Event.sockConnect peer, Event.sockSend "hi"] ++
    (if datagramArrives then [Event.sockRecv, Event.setKilledByUser, Event.killSubtree]
     else [])

/-- The events of a trace strictly before its first completed receive. -/
def beforeFirstRecv (tr : List Event) : List Event :=
  tr.takeWhile fun e => !e.isRecv

/-- The events of a trace strictly after its first completed receive. -/
def afterFirstRecv (tr : List Event) : List Event :=
  (tr.dropWhile fun e => !e.isRecv).drop 1

/-- The exit of one supervisor invocation: a normal `sys.exit(code)`, or an
uncaught exception terminating the process. -/
inductive ExitStatus : Type where
  | normal (code : Int)
  | raised (e : PyExn)
deriving DecidableEq, Repr

/-- The parsed command line of one invocation (lines 36-42):
the positional descriptor token, the `--killer` choice, and the
`--quit-when-told` and `--interpret` flags. -/
structure Args : Type where
  detailsHexedPickle : String
  killer : KillMethod
  quitWhenTold : Bool
  interpretFlag : Bool
deriving DecidableEq, Repr

/-- The environment of one run of `main` past the spawn: the value
`subProcess.wait()` returns (the child's exit code — negative when the
child died of a signal, as after a subtree kill), and the value of the
`killedByUser` global at the moment line 59 reads it (true exactly when
the listener's `recv` completed and line 28 ran before the check). -/
structure Run : Type where
  childExit : Int
  killedByUser : Bool
deriving DecidableEq, Repr

/-- Embedding of `main` (lines 35-64) as a trace and an exit status.  The descriptor is
decoded first (line 45); a decode exception propagates uncaught and the
process dies raising it.  With `--interpret` the descriptor is
pretty-printed and `main` returns, exiting 0 (lines 46-49).  Otherwise the
child is spawned (line 52), the SIGTERM handler is installed (line 53),
and then: with `--quit-when-told` the listener daemon thread is started,
the child is waited for, the listener is joined only if `killedByUser` is
set, and `sys.exit(exitCode)` runs (lines 54-61); without it the child is
waited for and `sys.exit(exitCode)` runs (lines 62-64). -/
def main (loads : List Nat → Except PyExn Details) (a : Args) (r : Run) :
    List Event × ExitStatus :=
  match interpret loads a.detailsHexedPickle with
  | Except.error e => ([Event.decodeToken], ExitStatus.raised e)
  | Except.ok _ =>
      if a.interpretFlag then
        ([Event.decodeToken, Event.printDescriptor], ExitStatus.normal 0)
      else
        if a.quitWhenTold then
          (([Event.decodeToken, Event.spawnChild, Event.installSigtermHandlerStep,
             Event.startListenerThread, Event.waitChild r.childExit] ++
            (if r.killedByUser then [Event.joinListener] else []) ++
            [Event.exitProcess r.childExit]),
           ExitStatus.normal r.childExit)
        else
          ([Event.decodeToken, Event.spawnChild, Event.installSigtermHandlerStep,
            Event.waitChild r.childExit, Event.exitProcess r.childExit],
           ExitStatus.normal r.childExit)

/-! ## The C3 claim, formalised for refutation -/

/-- Claim C3's protocol order, stated of a listener trace: no datagram is
sent before the first completed receive ("first blocks for a single inbound
termination datagram, and only on receipt does it send"), and an
acknowledgement datagram is sent after that receive and before the subtree
kill. -/
def ackAfterReceiptBeforeKill (tr : List Event) : Prop :=
  ((beforeFirstRecv tr).all fun e => !e.isSend) = true ∧
  (((afterFirstRecv tr).takeWhile fun e => !(e == Event.killSubtree)).any
    Event.isSend) = true

/-! ## Concrete sample inputs for witnesses and counterexamples -/

/-- A sample descendant forest: pid 5 a child of the supervisor, pid 7 a
child of pid 5. -/
def sampleForest : ProcForest :=
  ProcForest.node 5 (ProcForest.node 7 ProcForest.nil ProcForest.nil) ProcForest.nil

/-- A sample decoded descriptor. -/
def details0 : Details :=
  Details.mk (PopenDetails.mk ["sleep", "1000"] []) ("localhost", 5000)

/-- A sample unpickler: every byte string unpickles to `details0`. -/
def loads0 : List Nat → Except PyExn Details :=
  fun _ => Except.ok details0

/-- A sample control peer. -/
def peer0 : String × Nat := ("localhost", 5000)

/-- Arguments for a `--quit-when-told` run with a well-formed token. -/
def argsQWT : Args := Args.mk "" KillMethod.terminate true false

/-- Arguments for a plain run (no flags) with a well-formed token. -/
def argsPlain : Args := Args.mk "" KillMethod.terminate false false

/-- Arguments for an `--interpret` run with a well-formed token. -/
def argsInterp : Args := Args.mk "" KillMethod.terminate false true

/-- Arguments whose descriptor token is malformed hex. -/
def argsBadToken : Args := Args.mk "zz" KillMethod.terminate false false

/-- A run in which the child exits 0 naturally and no termination request
ever arrived. -/
def runNatural : Run := Run.mk 0 false

/-- A run in which the child was killed by request: `wait()` returned -15
and the listener had set `killedByUser`. -/
def runKilled : Run := Run.mk (-15) true

/-- A run in which the child exits 77 naturally. -/
def run77 : Run := Run.mk 77 false

/-! ## Helper lemmas -/

/-- The enumeration `childrenRecursive` lists exactly the recursive
descendants in the snapshot forest. -/
theorem descendant_iff_mem_childrenRecursive (p : Nat) (f : ProcForest) :
    Descendant p f ↔ p ∈ childrenRecursive f := by
  induction f with
  | nil =>
      constructor
      · intro h; cases h
      · intro h; simp [childrenRecursive] at h
  | node q kids sibs ihk ihs =>
      constructor
      · intro h
        cases h with
        | self => simp [childrenRecursive]
        | inKids h =>
            simp only [childrenRecursive, List.mem_cons, List.mem_append]
            exact Or.inr (Or.inl (ihk.mp h))
        | inSibs h =>
            simp only [childrenRecursive, List.mem_cons, List.mem_append]
            exact Or.inr (Or.inr (ihs.mp h))
      · intro h
        simp only [childrenRecursive, List.mem_cons, List.mem_append] at h
        rcases h with h | h | h
        · subst h; exact Descendant.self
        · exact Descendant.inKids (ihk.mpr h)
        · exact Descendant.inSibs (ihs.mpr h)

/-! ## The claims -/

/-- Claim C1: for every supervisor invocation without `--interpret` (whose
descriptor decodes), after the spawned child process exits — `r.childExit`
being whatever `subProcess.wait()` returned, so naturally, via signal, or
via subtree kill — the supervisor exits with exactly the child's exit
code, in both the `--quit-when-told` and plain branches. -/
theorem exit_code_equals_child_exit (loads : List Nat → Except PyExn Details)
    (a : Args) (r : Run) (d : Details)
    (hok : interpret loads a.detailsHexedPickle = Except.ok d)
    (hni : a.interpretFlag = false) :
    (main loads a r).2 = ExitStatus.normal r.childExit ∧
    Event.exitProcess r.childExit ∈ (main loads a r).1 := by
  by_cases hq : a.quitWhenTold
  · by_cases hk : r.killedByUser <;> simp [main, hok, hni, hq, hk]
  · simp [main, hok, hni, hq]

/-- Witness for C1: a plain run whose child exits 77 makes the supervisor
exit 77. -/
theorem exit_code_equals_child_exit_witness :
    (main loads0 argsPlain run77).2 = ExitStatus.normal 77 ∧
    Event.exitProcess 77 ∈ (main loads0 argsPlain run77).1 :=
  exit_code_equals_child_exit loads0 argsPlain run77 details0 rfl rfl

/-- Claim C2: when `killAll` runs, it applies the configured kill method to
every process that is a recursive descendant of the supervisor's own
process at invocation time — no descendant omitted — and it touches
nothing else, always with the configured method. -/
theorem killAll_covers_all_descendants (f : ProcForest) (k : KillMethod) :
    (∀ p, Descendant p f → KillAction.mk p k ∈ killAll f k) ∧
    (∀ a, a ∈ killAll f k → a.method = k ∧ Descendant a.pid f) := by
  constructor
  · intro p hp
    exact List.mem_map.mpr ⟨p, (descendant_iff_mem_childrenRecursive p f).mp hp, rfl⟩
  · intro a ha
    rcases List.mem_map.mp ha with ⟨p, hp, rfl⟩
    exact ⟨rfl, (descendant_iff_mem_childrenRecursive p f).mpr hp⟩

/-- Witness for C2: in the sample forest, the grandchild pid 7 is killed
with the forced method, and the action on pid 5 carries the configured
method and targets a genuine descendant. -/
theorem killAll_covers_all_descendants_witness :
    KillAction.mk 7 KillMethod.kill ∈ killAll sampleForest KillMethod.kill ∧
    ((KillAction.mk 5 KillMethod.kill).method = KillMethod.kill ∧
      Descendant (KillAction.mk 5 KillMethod.kill).pid sampleForest) :=
  ⟨(killAll_covers_all_descendants sampleForest KillMethod.kill).1 7
      (Descendant.inKids Descendant.self),
   (killAll_covers_all_descendants sampleForest KillMethod.kill).2
      (KillAction.mk 5 KillMethod.kill) (by decide)⟩

/-- Claim C3, refuted: the listener does NOT first block for an inbound
datagram and then acknowledge before killing.  On the concrete session in
which the termination datagram arrives, the single outbound datagram is
sent before the receive completes, and no datagram at all is sent between
the receive and the subtree kill. -/
theorem ack_after_receipt_counterexample :
    ¬ ackAfterReceiptBeforeKill (quitWhenToldServer peer0 true) := by
  unfold ackAfterReceiptBeforeKill
  decide

/-- Claim C3 as amended: the listener first sends its single datagram to
the control peer, then blocks for the inbound termination datagram; on
receipt it marks the session terminated-by-request and performs the
subtree kill, sending no acknowledgement after receipt. -/
theorem listener_greets_then_blocks_then_kills (peer : String × Nat) :
    ((beforeFirstRecv (quitWhenToldServer peer true)).any Event.isSend) = true ∧
    afterFirstRecv (quitWhenToldServer peer true) =
      [Event.setKilledByUser, Event.killSubtree] ∧
    ((afterFirstRecv (quitWhenToldServer peer true)).all fun e => !e.isSend) = true := by
  simp [quitWhenToldServer, beforeFirstRecv, afterFirstRecv, Event.isRecv, Event.isSend]

/-- Claim C4, refuted: with `--quit-when-told`, when the child exits
naturally (no termination request, `killedByUser` still false), the
supervisor reaches `sys.exit` without ever joining the listener thread it
started, even though that thread is still blocked in its receive — so the
supervisor does exit while the listener task is still running. -/
theorem join_before_exit_counterexample :
    Event.startListenerThread ∈ (main loads0 argsQWT runNatural).1 ∧
    runNatural.killedByUser = false ∧
    Event.joinListener ∉ (main loads0 argsQWT runNatural).1 ∧
    Event.exitProcess 0 ∈ (main loads0 argsQWT runNatural).1 := by
  decide

/-- Claim C4 as amended: the supervisor joins the listener thread before
exiting exactly when the session was terminated by request (`killedByUser`
set when the child's exit is observed); when the child exits naturally
without a termination request, the supervisor exits without joining the
still-running daemon listener thread. -/
theorem join_exactly_when_killed_by_user (loads : List Nat → Except PyExn Details)
    (a : Args) (r : Run) (d : Details)
    (hok : interpret loads a.detailsHexedPickle = Except.ok d)
    (hni : a.interpretFlag = false) (hq : a.quitWhenTold = true) :
    (r.killedByUser = true →
      (main loads a r).1 =
        [Event.decodeToken, Event.spawnChild, Event.installSigtermHandlerStep,
         Event.startListenerThread, Event.waitChild r.childExit, Event.joinListener,
         Event.exitProcess r.childExit]) ∧
    (r.killedByUser = false → Event.joinListener ∉ (main loads a r).1) := by
  constructor <;> intro hk <;> simp [main, hok, hni, hq, hk]

/-- Witness for the amended C4: in a terminated-by-request run the join
step sits between the child's wait and the exit. -/
theorem join_exactly_when_killed_by_user_witness :
    (main loads0 argsQWT runKilled).1 =
      [Event.decodeToken, Event.spawnChild, Event.installSigtermHandlerStep,
       Event.startListenerThread, Event.waitChild (-15), Event.joinListener,
       Event.exitProcess (-15)] :=
  (join_exactly_when_killed_by_user loads0 argsQWT runKilled details0 rfl rfl rfl).1 rfl

/-- Claim C5: if the child exits naturally while the listener is still
blocked waiting for a datagram that never arrives (`killedByUser` false),
the supervisor's main control flow reaches the exit call without blocking
on the listener task: no join occurs and it exits with the child's code. -/
theorem natural_exit_reaches_exit_without_join (loads : List Nat → Except PyExn Details)
    (a : Args) (r : Run) (d : Details)
    (hok : interpret loads a.detailsHexedPickle = Except.ok d)
    (hni : a.interpretFlag = false) (hq : a.quitWhenTold = true)
    (hk : r.killedByUser = false) :
    Event.joinListener ∉ (main loads a r).1 ∧
    Event.exitProcess r.childExit ∈ (main loads a r).1 ∧
    (main loads a r).2 = ExitStatus.normal r.childExit := by
  simp [main, hok, hni, hq, hk]

/-- Witness for C5: the concrete quit-when-told run whose child exits 0
naturally reaches the exit without a join. -/
theorem natural_exit_reaches_exit_without_join_witness :
    Event.joinListener ∉ (main loads0 argsQWT runNatural).1 ∧
    Event.exitProcess 0 ∈ (main loads0 argsQWT runNatural).1 ∧
    (main loads0 argsQWT runNatural).2 = ExitStatus.normal 0 :=
  natural_exit_reaches_exit_without_join loads0 argsQWT runNatural details0 rfl rfl rfl rfl

/-- Claim C6: the handler installed for SIGTERM and the control-channel
termination path invoke the same subtree-kill routine `killAll`, so in any
one state (descendant snapshot and configured method) the two paths
deliver identical kill actions and reach identical pid sets. -/
theorem sigterm_and_control_paths_kill_same (f : ProcForest) (k : KillMethod) :
    installedSigtermHandler f k = listenerKillRoutine f k ∧
    killedPids (installedSigtermHandler f k) = killedPids (listenerKillRoutine f k) :=
  ⟨rfl, rfl⟩

/-- Claim C7: with `--interpret` (and a decodable token) the supervisor
decodes the token and prints the descriptor, spawns no child, installs no
signal handler, starts no listener, and exits 0. -/
theorem interpret_mode_runs_nothing (loads : List Nat → Except PyExn Details)
    (a : Args) (r : Run) (d : Details)
    (hok : interpret loads a.detailsHexedPickle = Except.ok d)
    (hi : a.interpretFlag = true) :
    main loads a r = ([Event.decodeToken, Event.printDescriptor], ExitStatus.normal 0) ∧
    Event.spawnChild ∉ (main loads a r).1 ∧
    Event.installSigtermHandlerStep ∉ (main loads a r).1 ∧
    Event.startListenerThread ∉ (main loads a r).1 := by
  have h : main loads a r =
      ([Event.decodeToken, Event.printDescriptor], ExitStatus.normal 0) := by
    simp [main, hok, hi]
  refine ⟨h, ?_, ?_, ?_⟩ <;> rw [h] <;> decide

/-- Witness for C7: the concrete interpret-mode run decodes, prints and
exits 0 with no spawn, handler or listener. -/
theorem interpret_mode_runs_nothing_witness :
    main loads0 argsInterp runNatural =
      ([Event.decodeToken, Event.printDescriptor], ExitStatus.normal 0) ∧
    Event.spawnChild ∉ (main loads0 argsInterp runNatural).1 ∧
    Event.installSigtermHandlerStep ∉ (main loads0 argsInterp runNatural).1 ∧
    Event.startListenerThread ∉ (main loads0 argsInterp runNatural).1 :=
  interpret_mode_runs_nothing loads0 argsInterp runNatural details0 rfl rfl

/-- Claim C8, refuted: on the malformed token `zz`, decoding fails with the
hex codec's `TypeError` — whose class name is not `DecodeError`; the
module defines no dedicated decode-failure class at all. -/
theorem decode_error_class_counterexample :
    interpret loads0 "zz" = Except.error PyExn.typeError ∧
    PyExn.className PyExn.typeError = "TypeError" ∧
    PyExn.className PyExn.typeError ≠ "DecodeError" := by
  refine ⟨rfl, rfl, ?_⟩
  decide

/-- Claim C8 as amended: every failed decode raises one of the underlying
library exceptions (`TypeError` from the hex codec, or an unpickling
error), never a dedicated `DecodeError` class; the exception propagates
out of `main` uncaught, so the failure is fatal to that invocation, with
no second decode attempt (no retry). -/
theorem decode_failure_raises_library_error (loads : List Nat → Except PyExn Details)
    (a : Args) (r : Run) (e : PyExn)
    (hfail : interpret loads a.detailsHexedPickle = Except.error e) :
    (PyExn.className e = "TypeError" ∨ PyExn.className e = "UnpicklingError") ∧
    PyExn.className e ≠ "DecodeError" ∧
    main loads a r = ([Event.decodeToken], ExitStatus.raised e) := by
  refine ⟨?_, ?_, ?_⟩
  · cases e
    · exact Or.inl rfl
    · exact Or.inr rfl
  · cases e <;> decide
  · simp [main, hfail]

/-- Witness for the amended C8: the run on the malformed token `zz` dies
raising `TypeError` after its single decode attempt. -/
theorem decode_failure_raises_library_error_witness :
    (PyExn.className PyExn.typeError = "TypeError" ∨
      PyExn.className PyExn.typeError = "UnpicklingError") ∧
    PyExn.className PyExn.typeError ≠ "DecodeError" ∧
    main loads0 argsBadToken runNatural =
      ([Event.decodeToken], ExitStatus.raised PyExn.typeError) :=
  decode_failure_raises_library_error loads0 argsBadToken runNatural PyExn.typeError rfl

/-- Claim C9: the control channel is single-shot: in every session
(whether or not the termination datagram ever arrives) the listener sends
exactly one datagram and completes at most one receive, and after the
receive that handles the termination event it performs no further sends or
receives. -/
theorem listener_single_shot (peer : String × Nat) (datagramArrives : Bool) :
    ((quitWhenToldServer peer datagramArrives).filter Event.isSend).length = 1 ∧
    ((quitWhenToldServer peer datagramArrives).filter Event.isRecv).length ≤ 1 ∧
    ((afterFirstRecv (quitWhenToldServer peer datagramArrives)).all
      fun e => !e.isSend && !e.isRecv) = true := by
  cases datagramArrives <;>
    simp [quitWhenToldServer, afterFirstRecv, Event.isSend, Event.isRecv]

/-- Claim C10: without `--killer` the parsed method defaults to the
graceful `terminate` — so every action `killAll` then delivers uses
`terminate`, never `kill` — and the only accepted values for `--killer`
are `kill` and `terminate`, anything else being an argument error. -/
theorem killer_defaults_to_terminate (f : ProcForest) (s : String) (m : KillMethod) :
    parseKiller none = Except.ok KillMethod.terminate ∧
    (∀ a, a ∈ killAll f KillMethod.terminate →
      a.method = KillMethod.terminate ∧ a.method ≠ KillMethod.kill) ∧
    (parseKiller (some s) = Except.ok m →
      (s = "kill" ∧ m = KillMethod.kill) ∨
      (s = "terminate" ∧ m = KillMethod.terminate)) ∧
    (s ≠ "kill" → s ≠ "terminate" →
      parseKiller (some s) = Except.error "argument --killer: invalid choice") := by
  refine ⟨rfl, ?_, ?_, ?_⟩
  · intro a ha
    rcases List.mem_map.mp ha with ⟨p, hp, rfl⟩
    exact ⟨rfl, fun hcontra => KillMethod.noConfusion hcontra⟩
  · intro h
    by_cases h1 : s = "kill"
    · subst h1
      have hred : parseKiller (some "kill") = Except.ok KillMethod.kill := rfl
      rw [hred] at h
      injection h with h
      exact Or.inl ⟨rfl, h.symm⟩
    · by_cases h2 : s = "terminate"
      · subst h2
        have hred : parseKiller (some "terminate") = Except.ok KillMethod.terminate := rfl
        rw [hred] at h
        injection h with h
        exact Or.inr ⟨rfl, h.symm⟩
      · simp [parseKiller, h1, h2] at h
  · intro h1 h2
    simp [parseKiller, h1, h2]

/-- Witness for C10: the default parse yields `terminate`, a sample action
delivered under it is graceful, `kill` is an accepted choice, and a bogus
choice is rejected. -/
theorem killer_defaults_to_terminate_witness :
    parseKiller none = Except.ok KillMethod.terminate ∧
    ((KillAction.mk 5 KillMethod.terminate).method = KillMethod.terminate ∧
      (KillAction.mk 5 KillMethod.terminate).method ≠ KillMethod.kill) ∧
    (("kill" = "kill" ∧ KillMethod.kill = KillMethod.kill) ∨
      ("kill" = "terminate" ∧ KillMethod.kill = KillMethod.terminate)) ∧
    parseKiller (some "oops") = Except.error "argument --killer: invalid choice" :=
  ⟨(killer_defaults_to_terminate sampleForest "kill" KillMethod.kill).1,
   (killer_defaults_to_terminate sampleForest "kill" KillMethod.kill).2.1
      (KillAction.mk 5 KillMethod.terminate) (by decide),
   (killer_defaults_to_terminate sampleForest "kill" KillMethod.kill).2.2.1 rfl,
   (killer_defaults_to_terminate sampleForest "oops" KillMethod.kill).2.2.2 (by decide)
      (by decide)⟩

end Closer
